import Mathlib

/-!
Shallow embedding of `src/services/sso-auth.ts`: SSO credential storage and
access-token lifecycle management for a browser extension.

Modelling conventions:
* The external key/value store (`@plasmohq/storage`) holds the four fixed keys
  used by the module.  Token and expiry are kept as raw strings (the code runs
  `parseInt` on the expiry string); credentials and endpoint configuration are
  stored via a `JSON.stringify`/`JSON.parse` round trip, modelled as the typed
  record itself.
* Every operation additionally returns the list of store operations it issued
  (get/set/remove with the key), so frame and "no read of key X" properties
  are statable.
* `Date.now()` is passed in explicitly as an `Int` (epoch milliseconds).
* JS number-to-string (`Number.prototype.toString`) and `parseInt` are
  modelled by `jsIntToString` / `jsParseInt`; `parseInt` returning `NaN` is
  modelled as `none`, and the JS comparison `now >= NaN` (always false) by
  `jsGE`.
* The network boundary (`fetch`) is an oracle `FetchOutcome`: either a
  response (status, statusText, best-effort body text, best-effort JSON body)
  or a rejection carrying the thrown error's message.  A transport-level
  failure is the rejection whose message is the literal `"Failed to fetch"`,
  which is exactly what the code's catch block tests for.
* `console.log` calls are omitted (no observable effect on store, network or
  results).
-/

/-- Credentials record (`SSOCredentials` in the source): `otp` and `otp_type`
are optional fields. -/
structure SSOCredentials where
  userid : String
  password : String
  otp : Option String
  otp_type : Option String
deriving DecidableEq, Repr

/-- Token response record (`SSOTokenResponse` in the source).  `expires_in`
is the server-declared lifetime in seconds; modelled as an integer. -/
structure SSOTokenResponse where
  access_token : String
  scope : String
  id_token : String
  token_type : String
  expires_in : Int
  nonce : String
deriving DecidableEq, Repr

/-- Endpoint configuration record (`GeminiAPIConfig` in the source). -/
structure GeminiAPIConfig where
  ssoUrl : String
  geminiApiUrl : String
  projectId : String
  location : String
  model : String
deriving DecidableEq, Repr

/-- Storage key `sso_access_token`. -/
def SSO_TOKEN_KEY : String := "sso_access_token"

/-- Storage key `sso_token_expiry`. -/
def SSO_TOKEN_EXPIRY_KEY : String := "sso_token_expiry"

/-- Storage key `sso_credentials`. -/
def SSO_CREDENTIALS_KEY : String := "sso_credentials"

/-- Storage key `gemini_api_config`. -/
def GEMINI_CONFIG_KEY : String := "gemini_api_config"

/-- The external key/value store, restricted to the four keys the module
uses.  Token and expiry are raw strings; credentials and configuration are
the typed records (their JSON serialisation round-trips). -/
structure Store where
  sso_access_token : Option String
  sso_token_expiry : Option String
  sso_credentials : Option SSOCredentials
  gemini_api_config : Option GeminiAPIConfig
deriving DecidableEq, Repr

/-- A store with nothing persisted. -/
def emptyStore : Store :=
  { sso_access_token := none, sso_token_expiry := none,
    sso_credentials := none, gemini_api_config := none }

/-- One operation issued against the external store. -/
inductive StoreOp where
  | get (key : String)
  | set (key : String)
  | remove (key : String)
deriving DecidableEq, Repr

/-- JS truthiness of a `string | undefined` value: `undefined` and the empty
string are falsy. -/
def truthy : Option String → Bool
  | none => false
  | some s => !(s = "")

/-- The character with code `48 + d`, i.e. the decimal digit character for
`d < 10` (as produced by `Number.prototype.toString`). -/
def digitChar (d : Nat) : Char := Char.ofNat (48 + d)

/-- Decimal digit characters of `n`, most significant first, with explicit
fuel (structural recursion; the fuel `n + 1` always suffices). -/
def natToDigitsAux : Nat → Nat → List Char
  | 0, _ => []
  | fuel + 1, n =>
    if n < 10 then [digitChar n]
    else natToDigitsAux fuel (n / 10) ++ [digitChar (n % 10)]

/-- Decimal digit characters of `n`, most significant first. -/
def natToDigits (n : Nat) : List Char := natToDigitsAux (n + 1) n

/-- Model of `Number.prototype.toString` on the integers this module ever
stringifies (integral epoch-millisecond timestamps, possibly negative). -/
def jsIntToString (n : Int) : String :=
  match n with
  | Int.ofNat m => String.mk (natToDigits m)
  | Int.negSucc m => String.mk ('-' :: natToDigits (m + 1))

/-- Whitespace characters skipped by `parseInt` (space, tab, LF, CR, VT, FF,
NBSP). -/
def isJsSpace (c : Char) : Bool :=
  decide (c.toNat = 32 ∨ c.toNat = 9 ∨ c.toNat = 10 ∨ c.toNat = 13 ∨
    c.toNat = 11 ∨ c.toNat = 12 ∨ c.toNat = 160)

/-- Decimal digit character test (codes 48-57). -/
def isDigitChar (c : Char) : Bool := decide (48 ≤ c.toNat ∧ c.toNat ≤ 57)

/-- Hexadecimal digit character test (0-9, a-f, A-F). -/
def isHexDigitChar (c : Char) : Bool :=
  decide ((48 ≤ c.toNat ∧ c.toNat ≤ 57) ∨ (97 ≤ c.toNat ∧ c.toNat ≤ 102) ∨
    (65 ≤ c.toNat ∧ c.toNat ≤ 70))

/-- Numeric value of a hexadecimal digit character. -/
def hexDigitVal (c : Char) : Nat :=
  if c.toNat ≤ 57 then c.toNat - 48
  else if c.toNat ≤ 70 then c.toNat - 55
  else c.toNat - 87

/-- Value of a list of decimal digit characters, left to right, on top of an
accumulator. -/
def digitsVal : List Char → Nat → Nat
  | [], acc => acc
  | c :: rest, acc => digitsVal rest (acc * 10 + (c.toNat - 48))

/-- Value of a list of hexadecimal digit characters, left to right. -/
def hexVal : List Char → Nat → Nat
  | [], acc => acc
  | c :: rest, acc => hexVal rest (acc * 16 + hexDigitVal c)

/-- Consume an optional leading sign (`'-'` code 45, `'+'` code 43); returns
whether the number is negated and the remaining characters. -/
def parseSign : List Char → Bool × List Char
  | [] => (false, [])
  | c :: rest =>
    if c.toNat = 45 then (true, rest)
    else if c.toNat = 43 then (false, rest)
    else (false, c :: rest)

/-- Recognise a leading `0x` / `0X` (codes 48 then 120/88), returning the
characters after it. -/
def stripHex : List Char → Option (List Char)
  | c0 :: c1 :: rest =>
    if c0.toNat = 48 ∧ (c1.toNat = 120 ∨ c1.toNat = 88) then some rest else none
  | _ => none

/-- Core of the `parseInt` model, on the character list: skip whitespace,
optional sign, optional hex marker, then the longest digit run; `none`
models `NaN`. -/
def jsParseIntChars (cs0 : List Char) : Option Int :=
  match parseSign (cs0.dropWhile isJsSpace) with
  | (neg, rest) =>
    match stripHex rest with
    | some hs =>
      let ds := hs.takeWhile isHexDigitChar
      if ds.isEmpty then none
      else some (if neg then -(hexVal ds 0 : Int) else (hexVal ds 0 : Int))
    | none =>
      let ds := rest.takeWhile isDigitChar
      if ds.isEmpty then none
      else some (if neg then -(digitsVal ds 0 : Int) else (digitsVal ds 0 : Int))

/-- Model of JS `parseInt(s)` (radix unspecified). -/
def jsParseInt (s : String) : Option Int := jsParseIntChars s.data

/-- The JS comparison `now >= e` where `e` may be `NaN` (`none`): any
comparison against `NaN` is false. -/
def jsGE (now : Int) (e : Option Int) : Bool :=
  match e with
  | none => false
  | some v => decide (v ≤ now)

/-- Embedding of `getSSOCredentials`: `storage.get(SSO_CREDENTIALS_KEY)` and
JSON-decode (modelled as the stored record itself); absence yields `null`. -/
def getSSOCredentials (st : Store) : Option SSOCredentials × List StoreOp :=
  (st.sso_credentials, [StoreOp.get SSO_CREDENTIALS_KEY])

/-- Embedding of `setSSOCredentials`. -/
def setSSOCredentials (credentials : SSOCredentials) (st : Store) :
    Store × List StoreOp :=
  ({ st with sso_credentials := some credentials },
   [StoreOp.set SSO_CREDENTIALS_KEY])

/-- Embedding of `getGeminiConfig`. -/
def getGeminiConfig (st : Store) : Option GeminiAPIConfig × List StoreOp :=
  (st.gemini_api_config, [StoreOp.get GEMINI_CONFIG_KEY])

/-- Embedding of `setGeminiConfig`. -/
def setGeminiConfig (config : GeminiAPIConfig) (st : Store) :
    Store × List StoreOp :=
  ({ st with gemini_api_config := some config }, [StoreOp.set GEMINI_CONFIG_KEY])

/-- Embedding of `clearTokens`: remove both token fields. -/
def clearTokens (st : Store) : Store × List StoreOp :=
  ({ st with sso_access_token := none, sso_token_expiry := none },
   [StoreOp.remove SSO_TOKEN_KEY, StoreOp.remove SSO_TOKEN_EXPIRY_KEY])

/-- Embedding of `getAccessToken`: read token and expiry; if either is falsy
(absent or empty) return `null`; if `Date.now() >= parseInt(expiry)` clear
both fields and return `null`; otherwise return the token. -/
def getAccessToken (now : Int) (st : Store) :
    Option String × Store × List StoreOp :=
  if !truthy st.sso_access_token || !truthy st.sso_token_expiry then
    (none, st, [StoreOp.get SSO_TOKEN_KEY, StoreOp.get SSO_TOKEN_EXPIRY_KEY])
  else if jsGE now (jsParseInt (st.sso_token_expiry.getD "")) then
    (none, (clearTokens st).1,
     [StoreOp.get SSO_TOKEN_KEY, StoreOp.get SSO_TOKEN_EXPIRY_KEY] ++
       (clearTokens st).2)
  else
    (st.sso_access_token, st,
     [StoreOp.get SSO_TOKEN_KEY, StoreOp.get SSO_TOKEN_EXPIRY_KEY])

/-- Embedding of `setAccessToken`: compute
`expiryTime = Date.now() + expires_in * 1000 - 5 * 60 * 1000` and persist the
token string and `expiryTime.toString()`. -/
def setAccessToken (now : Int) (tokenResponse : SSOTokenResponse) (st : Store) :
    Store × List StoreOp :=
  ({ st with
     sso_access_token := some tokenResponse.access_token,
     sso_token_expiry :=
       some (jsIntToString (now + tokenResponse.expires_in * 1000 - 5 * 60 * 1000)) },
   [StoreOp.set SSO_TOKEN_KEY, StoreOp.set SSO_TOKEN_EXPIRY_KEY])

/-- The JSON body of the login request as built by `performSSOLogin`. -/
structure LoginRequestBody where
  userid : String
  password : String
  otp : String
  otp_type : String
deriving DecidableEq, Repr

/-- The single `fetch` call issued by `performSSOLogin`, with its URL, method,
header, body and options. -/
structure SSOLoginRequest where
  url : String
  method : String
  contentTypeHeader : String
  body : LoginRequestBody
  mode : String
  credentials : String
  redirect : String
deriving DecidableEq, Repr

/-- JS `a || b` on a `string | undefined` left operand: the default is used
when the field is `undefined` or the empty string (both falsy). -/
def jsOr (a : Option String) (dflt : String) : String :=
  match a with
  | none => dflt
  | some s => if s = "" then dflt else s

/-- The request `performSSOLogin` sends for given URL and credentials. -/
def mkLoginRequest (ssoUrl : String) (credentials : SSOCredentials) :
    SSOLoginRequest :=
  { url := ssoUrl
    method := "POST"
    contentTypeHeader := "application/json"
    body :=
      { userid := credentials.userid
        password := credentials.password
        otp := jsOr credentials.otp "NONE"
        otp_type := jsOr credentials.otp_type "PUSH" }
    mode := "cors"
    credentials := "omit"
    redirect := "follow" }

/-- Decidable equality for `Except`, needed so that concrete outcomes can be
checked by evaluation. -/
instance {ε α : Type} [DecidableEq ε] [DecidableEq α] :
    DecidableEq (Except ε α) := fun a b =>
  match a, b with
  | Except.error x, Except.error y =>
    if h : x = y then Decidable.isTrue (congrArg Except.error h)
    else Decidable.isFalse (fun he => h (Except.error.inj he))
  | Except.ok x, Except.ok y =>
    if h : x = y then Decidable.isTrue (congrArg Except.ok h)
    else Decidable.isFalse (fun he => h (Except.ok.inj he))
  | Except.error _, Except.ok _ => Decidable.isFalse (fun he => Except.noConfusion he)
  | Except.ok _, Except.error _ => Decidable.isFalse (fun he => Except.noConfusion he)

/-- What the network returns for the single `fetch`.  `bodyText` models
`response.text()` (which may itself fail) and `bodyJson` models
`response.json()` (an `Except` carrying the parse-error message on
malformed bodies). -/
structure HttpResponse where
  status : Nat
  statusText : String
  bodyText : Except String String
  bodyJson : Except String SSOTokenResponse
deriving DecidableEq, Repr

/-- Outcome of the `fetch` call: a response, or a rejection carrying the
thrown error's message.  A transport-level failure is the rejection with
message `"Failed to fetch"` (the browser `TypeError` the code tests for). -/
inductive FetchOutcome where
  | response (r : HttpResponse)
  | failure (msg : String)
deriving DecidableEq, Repr

/-- JS `response.ok`: status in the range 200-299. -/
def responseOk (status : Nat) : Bool := decide (200 ≤ status ∧ status ≤ 299)

/-- The expanded diagnostic message `performSSOLogin` substitutes for a
transport-level fetch failure. -/
def networkErrorMessage (ssoUrl : String) : String :=
  "Network error: Cannot reach SSO endpoint at " ++ ssoUrl ++
    ". This might be due to:\n        1. CORS policy blocking the request\n        2. Network connectivity issues\n        3. SSL certificate problems\n        4. Firewall or VPN restrictions\n        \n        Please check your network connection and ensure the endpoint is accessible."

/-- The message of the error thrown on a non-2xx response:
`SSO login failed: status statusText. Details: errorDetails`. -/
def httpFailureMessage (status : Nat) (statusText errorDetails : String) :
    String :=
  "SSO login failed: " ++ toString status ++ " " ++ statusText ++
    ". Details: " ++ errorDetails

/-- The catch block of `performSSOLogin`: an error whose message is exactly
`"Failed to fetch"` is replaced by the expanded network diagnostic; every
other error is re-thrown unchanged. -/
def catchHandler (ssoUrl msg : String) : String :=
  if msg = "Failed to fetch" then networkErrorMessage ssoUrl else msg

/-- Result of `performSSOLogin`: the returned token response or the thrown
error message, the store afterwards, the store operations issued, and the
fetch requests issued. -/
structure LoginOutcome where
  result : Except String SSOTokenResponse
  store : Store
  storeOps : List StoreOp
  requests : List SSOLoginRequest
deriving DecidableEq, Repr

/-- Embedding of `performSSOLogin`: build the request body with `||`
defaults, issue one POST, throw a detailed error on a non-2xx status (the
body text read is best-effort: a failure yields empty details), parse the
JSON body on success and store it via `setAccessToken`; the catch block
rewrites only the `"Failed to fetch"` message. -/
def performSSOLogin (now : Int) (ssoUrl : String) (credentials : SSOCredentials)
    (st : Store) (net : FetchOutcome) : LoginOutcome :=
  let req := mkLoginRequest ssoUrl credentials
  match net with
  | FetchOutcome.failure msg =>
    { result := Except.error (catchHandler ssoUrl msg), store := st,
      storeOps := [], requests := [req] }
  | FetchOutcome.response r =>
    if !responseOk r.status then
      let errorDetails := match r.bodyText with
        | Except.ok t => t
        | Except.error _ => ""
      { result := Except.error
          (catchHandler ssoUrl (httpFailureMessage r.status r.statusText errorDetails)),
        store := st, storeOps := [], requests := [req] }
    else
      match r.bodyJson with
      | Except.error jmsg =>
        { result := Except.error (catchHandler ssoUrl jmsg), store := st,
          storeOps := [], requests := [req] }
      | Except.ok tokenResponse =>
        { result := Except.ok tokenResponse,
          store := (setAccessToken now tokenResponse st).1,
          storeOps := (setAccessToken now tokenResponse st).2,
          requests := [req] }

/-- The configuration-missing error message thrown by `getValidAccessToken`. -/
def configMissingMessage : String :=
  "No stored credentials or config found. Please configure SSO settings."

/-- Result of `getValidAccessToken`: the returned token string or the thrown
error message, plus store, store operations and fetch requests. -/
structure TokenOutcome where
  result : Except String String
  store : Store
  storeOps : List StoreOp
  requests : List SSOLoginRequest
deriving DecidableEq, Repr

/-- Embedding of `getValidAccessToken`: return a cached valid token
immediately; otherwise read credentials and configuration, throw the
configuration-missing error when either is absent, and otherwise delegate to
`performSSOLogin` and return the `access_token` of its result. -/
def getValidAccessToken (now : Int) (st : Store) (net : FetchOutcome) :
    TokenOutcome :=
  let r := getAccessToken now st
  match r.1 with
  | some token =>
    { result := Except.ok token, store := r.2.1, storeOps := r.2.2,
      requests := [] }
  | none =>
    let credentials := getSSOCredentials r.2.1
    let config := getGeminiConfig r.2.1
    match credentials.1, config.1 with
    | some cred, some cfg =>
      let lo := performSSOLogin now cfg.ssoUrl cred r.2.1 net
      { result := Except.map SSOTokenResponse.access_token lo.result,
        store := lo.store,
        storeOps := r.2.2 ++ credentials.2 ++ config.2 ++ lo.storeOps,
        requests := lo.requests }
    | _, _ =>
      { result := Except.error configMissingMessage, store := r.2.1,
        storeOps := r.2.2 ++ credentials.2 ++ config.2, requests := [] }

/-- Embedding of `isSSOConfigured`: read credentials and configuration and
test `!!(credentials && config && credentials.userid && credentials.password
&& config.ssoUrl && config.geminiApiUrl)` (empty strings are falsy). -/
def isSSOConfigured (st : Store) : Bool × List StoreOp :=
  let credentials := getSSOCredentials st
  let config := getGeminiConfig st
  (match credentials.1, config.1 with
   | some c, some g =>
     truthy (some c.userid) && truthy (some c.password) &&
       truthy (some g.ssoUrl) && truthy (some g.geminiApiUrl)
   | _, _ => false,
   credentials.2 ++ config.2)

/-- A token response with a 301-second lifetime (expiry one second past the
5-minute margin). -/
def trGood : SSOTokenResponse :=
  { access_token := "tok", scope := "", id_token := "", token_type := "",
    expires_in := 301, nonce := "" }

/-- A token response whose `access_token` is the empty string. -/
def trEmptyTok : SSOTokenResponse :=
  { access_token := "", scope := "", id_token := "", token_type := "",
    expires_in := 301, nonce := "" }

/-- A token response with an empty `access_token` and a long lifetime. -/
def trEmptyTokLong : SSOTokenResponse :=
  { access_token := "", scope := "", id_token := "", token_type := "",
    expires_in := 1000, nonce := "" }

/-- A well-formed token response with a long lifetime. -/
def trRoundTrip : SSOTokenResponse :=
  { access_token := "tok7", scope := "sc", id_token := "id",
    token_type := "Bearer", expires_in := 400, nonce := "n" }

/-- Credentials with no optional fields set. -/
def credPlain : SSOCredentials :=
  { userid := "user", password := "pw", otp := none, otp_type := none }

/-- Credentials whose optional fields are present but empty strings. -/
def credEmptyOtp : SSOCredentials :=
  { userid := "user", password := "pw", otp := some "", otp_type := some "" }

/-- An HTTP 401 response with a readable body. -/
def resp401 : HttpResponse :=
  { status := 401, statusText := "Unauthorized",
    bodyText := Except.ok "invalid credentials",
    bodyJson := Except.error "Unexpected token" }

/-- An HTTP 200 response whose body fails to parse as JSON. -/
def resp200Bad : HttpResponse :=
  { status := 200, statusText := "OK", bodyText := Except.ok "not json",
    bodyJson := Except.error "Unexpected end of JSON input" }

/-- An HTTP 200 response carrying a well-formed token body. -/
def resp200Good : HttpResponse :=
  { status := 200, statusText := "OK", bodyText := Except.ok "body",
    bodyJson := Except.ok trRoundTrip }

/-- A store holding a valid unexpired token. -/
def storeValidTok : Store :=
  { emptyStore with
    sso_access_token := some "tok"
    sso_token_expiry := some "99" }

/-- A store whose expiry field holds text that `parseInt` cannot parse. -/
def storeNanExpiry : Store :=
  { emptyStore with
    sso_access_token := some "tok"
    sso_token_expiry := some "abc" }

/-- A store holding a token string but no expiry field. -/
def storeOnlyTok : Store :=
  { emptyStore with sso_access_token := some "t" }

/-- The digit character for `d < 10` has code `48 + d`. -/
theorem digitChar_toNat (d : Nat) (h : d < 10) : (digitChar d).toNat = 48 + d := by
  interval_cases d <;> decide

/-- The fuel argument of `natToDigitsAux` is irrelevant once it exceeds `n`. -/
theorem natToDigitsAux_congr :
    ∀ (n f1 f2 : Nat), n < f1 → n < f2 →
      natToDigitsAux f1 n = natToDigitsAux f2 n := by
  intro n
  induction n using Nat.strong_induction_on with
  | _ n ih =>
    intro f1 f2 h1 h2
    cases f1 with
    | zero => omega
    | succ g1 =>
      cases f2 with
      | zero => omega
      | succ g2 =>
        simp only [natToDigitsAux]
        by_cases h : n < 10
        · simp [h]
        · have hdiv : n / 10 < n := Nat.div_lt_self (by omega) (by omega)
          simp only [h, if_false]
          rw [ih (n / 10) hdiv g1 g2 (by omega) (by omega)]

/-- Unfolding equation for `natToDigits`. -/
theorem natToDigits_eq (n : Nat) :
    natToDigits n =
      if n < 10 then [digitChar n]
      else natToDigits (n / 10) ++ [digitChar (n % 10)] := by
  show natToDigitsAux (n + 1) n = _
  simp only [natToDigitsAux]
  by_cases h : n < 10
  · simp [h]
  · have hdiv : n / 10 < n := Nat.div_lt_self (by omega) (by omega)
    simp only [h, if_false]
    rw [natToDigitsAux_congr (n / 10) n (n / 10 + 1) (by omega) (by omega)]
    rfl

/-- The digit list of `n` is never empty. -/
theorem natToDigits_ne_nil (n : Nat) : natToDigits n ≠ [] := by
  rw [natToDigits_eq]
  by_cases h : n < 10
  · simp [h]
  · simp [h]

/-- Every character produced by `natToDigits` is a decimal digit. -/
theorem natToDigits_mem_digit (n : Nat) :
    ∀ c ∈ natToDigits n, 48 ≤ c.toNat ∧ c.toNat ≤ 57 := by
  induction n using Nat.strong_induction_on with
  | _ n ih =>
    rw [natToDigits_eq]
    by_cases h : n < 10
    · rw [if_pos h]
      intro c hc
      rw [List.mem_singleton] at hc
      subst hc
      rw [digitChar_toNat n h]
      omega
    · rw [if_neg h]
      intro c hc
      rcases List.mem_append.1 hc with h1 | h2
      · exact ih (n / 10) (Nat.div_lt_self (by omega) (by omega)) c h1
      · rw [List.mem_singleton] at h2
        subst h2
        rw [digitChar_toNat (n % 10) (Nat.mod_lt _ (by omega))]
        omega

/-- Evaluating digit characters distributes over list append. -/
theorem digitsVal_append (xs ys : List Char) (acc : Nat) :
    digitsVal (xs ++ ys) acc = digitsVal ys (digitsVal xs acc) := by
  induction xs generalizing acc with
  | nil => rfl
  | cons c rest ih =>
    rw [List.cons_append]
    simp only [digitsVal]
    exact ih _

/-- Evaluating the digit characters of `n` recovers `n` (on top of any
accumulator). -/
theorem digitsVal_natToDigits (n : Nat) :
    ∀ acc, digitsVal (natToDigits n) acc =
      acc * 10 ^ (natToDigits n).length + n := by
  induction n using Nat.strong_induction_on with
  | _ n ih =>
    intro acc
    rw [natToDigits_eq]
    by_cases h : n < 10
    · rw [if_pos h]
      simp only [digitsVal, List.length_singleton, pow_one]
      rw [digitChar_toNat n h]
      omega
    · rw [if_neg h]
      rw [digitsVal_append]
      simp only [digitsVal]
      rw [ih (n / 10) (Nat.div_lt_self (by omega) (by omega))]
      rw [digitChar_toNat (n % 10) (Nat.mod_lt _ (by omega))]
      rw [List.length_append, List.length_singleton, pow_succ]
      generalize (10 : Nat) ^ (natToDigits (n / 10)).length = P
      have hmul : acc * (P * 10) = acc * P * 10 := by ring
      omega

/-- A decimal digit character is not `parseInt` whitespace. -/
theorem digit_isJsSpace_false (c : Char) (h : 48 ≤ c.toNat ∧ c.toNat ≤ 57) :
    isJsSpace c = false := by
  simp only [isJsSpace, decide_eq_false_iff_not]
  omega

/-- A decimal digit character is not a sign character. -/
theorem parseSign_digit (c : Char) (cs : List Char)
    (h : 48 ≤ c.toNat ∧ c.toNat ≤ 57) :
    parseSign (c :: cs) = (false, c :: cs) := by
  simp only [parseSign]
  rw [if_neg (by omega), if_neg (by omega)]

/-- A list of decimal digit characters has no leading hex marker. -/
theorem stripHex_digits (cs : List Char)
    (h : ∀ c ∈ cs, 48 ≤ c.toNat ∧ c.toNat ≤ 57) : stripHex cs = none := by
  match cs with
  | [] => rfl
  | [c] => rfl
  | c0 :: c1 :: rest =>
    have h1 := h c1 (by simp)
    simp only [stripHex]
    rw [if_neg]
    intro hcontra
    rcases hcontra.2 with hx | hx <;> omega

/-- The digit run of an all-digit list is the whole list. -/
theorem takeWhile_digits (cs : List Char)
    (h : ∀ c ∈ cs, 48 ≤ c.toNat ∧ c.toNat ≤ 57) :
    cs.takeWhile isDigitChar = cs := by
  induction cs with
  | nil => rfl
  | cons c rest ih =>
    have hc := h c (by simp)
    rw [List.takeWhile_cons, if_pos]
    · rw [ih (fun x hx => h x (by simp [hx]))]
    · simp only [isDigitChar, decide_eq_true_eq]
      omega

/-- The `parseInt` model evaluates an all-digit list to its decimal value. -/
theorem jsParseIntChars_digits (cs : List Char) (hne : cs ≠ [])
    (hdig : ∀ c ∈ cs, 48 ≤ c.toNat ∧ c.toNat ≤ 57) :
    jsParseIntChars cs = some (digitsVal cs 0 : Int) := by
  obtain ⟨d, ds, rfl⟩ := List.exists_cons_of_ne_nil hne
  have hd := hdig d (by simp)
  simp [jsParseIntChars, List.dropWhile_cons, digit_isJsSpace_false d hd,
    parseSign_digit d ds hd, stripHex_digits (d :: ds) hdig,
    takeWhile_digits (d :: ds) hdig]

/-- The `parseInt` model evaluates a minus sign followed by digits to the
negated decimal value. -/
theorem jsParseIntChars_neg (cs : List Char) (hne : cs ≠ [])
    (hdig : ∀ c ∈ cs, 48 ≤ c.toNat ∧ c.toNat ≤ 57) :
    jsParseIntChars (Char.ofNat 45 :: cs) = some (-(digitsVal cs 0 : Int)) := by
  have hsp : isJsSpace (Char.ofNat 45) = false := by decide
  have hsign : parseSign (Char.ofNat 45 :: cs) = (true, cs) := by
    simp only [parseSign]
    rw [if_pos (by decide)]
  have hem : cs.isEmpty = false := by
    cases cs with
    | nil => exact absurd rfl hne
    | cons a l => rfl
  simp [jsParseIntChars, List.dropWhile_cons, hsp, hsign,
    stripHex_digits cs hdig, takeWhile_digits cs hdig, hem]

/-- Round trip: the `parseInt` model recovers every integer written by the
`toString` model.  This is the fact that makes the stored expiry timestamp
readable again. -/
theorem jsParseInt_jsIntToString (n : Int) : jsParseInt (jsIntToString n) = some n := by
  cases n with
  | ofNat m =>
    show jsParseIntChars (natToDigits m) = some (Int.ofNat m)
    rw [jsParseIntChars_digits _ (natToDigits_ne_nil m) (natToDigits_mem_digit m)]
    rw [digitsVal_natToDigits m 0]
    simp
  | negSucc m =>
    show jsParseIntChars ('-' :: natToDigits (m + 1)) = some (Int.negSucc m)
    have h45 : ('-' : Char) = Char.ofNat 45 := by decide
    rw [h45]
    rw [jsParseIntChars_neg _ (natToDigits_ne_nil (m + 1)) (natToDigits_mem_digit (m + 1))]
    rw [digitsVal_natToDigits (m + 1) 0]
    simp [Int.negSucc_eq]

/-- The `toString` model never produces the empty string. -/
theorem jsIntToString_ne_empty (n : Int) : jsIntToString n ≠ "" := by
  cases n with
  | ofNat m =>
    obtain ⟨d, ds, h⟩ := List.exists_cons_of_ne_nil (natToDigits_ne_nil m)
    simp only [jsIntToString, h]
    intro hc
    exact List.noConfusion (congrArg String.data hc)
  | negSucc m =>
    intro hc
    exact List.noConfusion (congrArg String.data hc)

/-- On a non-empty token, non-empty expiry and an unparseable expiry
(`parseInt` yields `NaN`), `getAccessToken` returns the token and leaves the
store untouched, because `now >= NaN` is false. -/
theorem getAccessToken_nan (now : Int) (st : Store) (tok e : String)
    (htok : st.sso_access_token = some tok) (hexp : st.sso_token_expiry = some e)
    (htne : tok ≠ "") (hene : e ≠ "") (hnan : jsParseInt e = none) :
    getAccessToken now st =
      (some tok, st,
       [StoreOp.get SSO_TOKEN_KEY, StoreOp.get SSO_TOKEN_EXPIRY_KEY]) := by
  unfold getAccessToken
  rw [htok, hexp]
  rw [if_neg (by simp [truthy, htne, hene])]
  simp only [Option.getD, hnan, jsGE]
  simp [htok]

/-- On a non-empty token and a parseable expiry at or before `now`,
`getAccessToken` clears both fields and returns `null`. -/
theorem getAccessToken_expired (now : Int) (st : Store) (tok e : String) (v : Int)
    (htok : st.sso_access_token = some tok) (hexp : st.sso_token_expiry = some e)
    (htne : tok ≠ "") (hene : e ≠ "") (hp : jsParseInt e = some v)
    (hle : v ≤ now) :
    getAccessToken now st =
      (none, (clearTokens st).1,
       [StoreOp.get SSO_TOKEN_KEY, StoreOp.get SSO_TOKEN_EXPIRY_KEY,
        StoreOp.remove SSO_TOKEN_KEY, StoreOp.remove SSO_TOKEN_EXPIRY_KEY]) := by
  unfold getAccessToken
  rw [htok, hexp]
  rw [if_neg (by simp [truthy, htne, hene])]
  simp only [Option.getD, hp, jsGE]
  rw [if_pos (by simp [hle])]
  simp [clearTokens]

/-- On a non-empty token and a parseable expiry strictly after `now`,
`getAccessToken` returns the token and leaves the store untouched. -/
theorem getAccessToken_valid (now : Int) (st : Store) (tok e : String) (v : Int)
    (htok : st.sso_access_token = some tok) (hexp : st.sso_token_expiry = some e)
    (htne : tok ≠ "") (hene : e ≠ "") (hp : jsParseInt e = some v)
    (hlt : now < v) :
    getAccessToken now st =
      (some tok, st,
       [StoreOp.get SSO_TOKEN_KEY, StoreOp.get SSO_TOKEN_EXPIRY_KEY]) := by
  unfold getAccessToken
  rw [htok, hexp]
  rw [if_neg (by simp [truthy, htne, hene])]
  simp only [Option.getD, hp, jsGE]
  rw [if_neg (by simp; omega)]

/-- On a falsy token or expiry field (absent or empty), `getAccessToken`
returns `null` and leaves the store untouched: no field is written or
removed, and a surviving field is not cleaned up. -/
theorem getAccessToken_falsy (now : Int) (st : Store)
    (h : st.sso_access_token = none ∨ st.sso_token_expiry = none ∨
      st.sso_access_token = some "" ∨ st.sso_token_expiry = some "") :
    getAccessToken now st =
      (none, st, [StoreOp.get SSO_TOKEN_KEY, StoreOp.get SSO_TOKEN_EXPIRY_KEY]) := by
  unfold getAccessToken
  rw [if_pos]
  rcases h with h | h | h | h <;> simp [truthy, h]

/-- Whenever `getAccessToken` returns a token, the store is unchanged and
only the two reads were issued. -/
theorem getAccessToken_some_frame (now : Int) (st : Store) (t : String)
    (h : (getAccessToken now st).1 = some t) :
    getAccessToken now st =
      (some t, st, [StoreOp.get SSO_TOKEN_KEY, StoreOp.get SSO_TOKEN_EXPIRY_KEY]) := by
  unfold getAccessToken at h ⊢
  split_ifs at h ⊢
  simp_all

/-- `getAccessToken` never touches the credentials or configuration
records. -/
theorem getAccessToken_store_fields (now : Int) (st : Store) :
    (getAccessToken now st).2.1.sso_credentials = st.sso_credentials ∧
    (getAccessToken now st).2.1.gemini_api_config = st.gemini_api_config := by
  unfold getAccessToken clearTokens
  split_ifs <;> simp

/-- Reading back a token written by `setAccessToken`: valid strictly before
the stored expiry instant, expired (and clearing the two fields) at or after
it — provided the token string itself is non-empty. -/
theorem getAccessToken_after_set (now T : Int) (tr : SSOTokenResponse) (st : Store)
    (hne : tr.access_token ≠ "") :
    getAccessToken now (setAccessToken T tr st).1 =
      if T + tr.expires_in * 1000 - 5 * 60 * 1000 ≤ now then
        (none, (clearTokens (setAccessToken T tr st).1).1,
         [StoreOp.get SSO_TOKEN_KEY, StoreOp.get SSO_TOKEN_EXPIRY_KEY,
          StoreOp.remove SSO_TOKEN_KEY, StoreOp.remove SSO_TOKEN_EXPIRY_KEY])
      else
        (some tr.access_token, (setAccessToken T tr st).1,
         [StoreOp.get SSO_TOKEN_KEY, StoreOp.get SSO_TOKEN_EXPIRY_KEY]) := by
  by_cases hle : T + tr.expires_in * 1000 - 5 * 60 * 1000 ≤ now
  · rw [if_pos hle]
    exact getAccessToken_expired now (setAccessToken T tr st).1 tr.access_token
      (jsIntToString (T + tr.expires_in * 1000 - 5 * 60 * 1000)) _
      (by simp [setAccessToken]) (by simp [setAccessToken]) hne
      (jsIntToString_ne_empty _) (jsParseInt_jsIntToString _) hle
  · rw [if_neg hle]
    exact getAccessToken_valid now (setAccessToken T tr st).1 tr.access_token
      (jsIntToString (T + tr.expires_in * 1000 - 5 * 60 * 1000)) _
      (by simp [setAccessToken]) (by simp [setAccessToken]) hne
      (jsIntToString_ne_empty _) (jsParseInt_jsIntToString _) (by omega)

/-- The error message built for a non-2xx response is never the transport
failure message, so the catch block re-throws it unchanged. -/
theorem httpFailureMessage_ne (s : Nat) (t d : String) :
    httpFailureMessage s t d ≠ "Failed to fetch" := by
  intro h
  have hlen := congrArg String.length h
  simp only [httpFailureMessage, String.length_append] at hlen
  have h1 : ("SSO login failed: ").length = 18 := rfl
  have h2 : (" ").length = 1 := rfl
  have h3 : (". Details: ").length = 11 := rfl
  have h4 : ("Failed to fetch").length = 15 := rfl
  omega

/-- `performSSOLogin` issues exactly one fetch, the login request, on every
path. -/
theorem performSSOLogin_requests (now : Int) (url : String)
    (cred : SSOCredentials) (st : Store) (net : FetchOutcome) :
    (performSSOLogin now url cred st net).requests = [mkLoginRequest url cred] := by
  cases net with
  | failure m => rfl
  | response r =>
    simp only [performSSOLogin]
    by_cases hok : responseOk r.status
    · cases hj : r.bodyJson with
      | error jmsg => simp [hok, hj]
      | ok tr => simp [hok, hj]
    · simp [hok]

/-- On a 2xx response with a well-formed token body, `performSSOLogin`
returns the body and its only store effect is `setAccessToken`. -/
theorem performSSOLogin_success (now : Int) (url : String)
    (cred : SSOCredentials) (st : Store) (r : HttpResponse)
    (tr : SSOTokenResponse) (hok : responseOk r.status = true)
    (hjson : r.bodyJson = Except.ok tr) :
    performSSOLogin now url cred st (FetchOutcome.response r) =
      { result := Except.ok tr, store := (setAccessToken now tr st).1,
        storeOps := (setAccessToken now tr st).2,
        requests := [mkLoginRequest url cred] } := by
  simp [performSSOLogin, hok, hjson]

/-- C1 (amended): for every token response whose `access_token` is
non-empty, written by `setAccessToken` with `expires_in = E` at time `T`, a
`getAccessToken` call strictly before `T + E*1000 - 300000` returns the
stored token and leaves the store unchanged; a call at that instant or later
returns absent and deletes both the token and expiry fields; and when
`E*1000 < 300000` the expiry lies in the past, so the very first read (at
time `T`) already returns absent (no floor is applied). -/
theorem C1_expiry_boundary (st : Store) (T now : Int) (tr : SSOTokenResponse)
    (hne : tr.access_token ≠ "") :
    (now < T + tr.expires_in * 1000 - 300000 →
      getAccessToken now (setAccessToken T tr st).1 =
        (some tr.access_token, (setAccessToken T tr st).1,
         [StoreOp.get SSO_TOKEN_KEY, StoreOp.get SSO_TOKEN_EXPIRY_KEY])) ∧
    (T + tr.expires_in * 1000 - 300000 ≤ now →
      (getAccessToken now (setAccessToken T tr st).1).1 = none ∧
      (getAccessToken now (setAccessToken T tr st).1).2.1.sso_access_token = none ∧
      (getAccessToken now (setAccessToken T tr st).1).2.1.sso_token_expiry = none) ∧
    (tr.expires_in * 1000 < 300000 →
      (getAccessToken T (setAccessToken T tr st).1).1 = none) := by
  have h := getAccessToken_after_set now T tr st hne
  have hT := getAccessToken_after_set T T tr st hne
  refine ⟨fun hlt => ?_, fun hge => ?_, fun hsmall => ?_⟩
  · rw [h, if_neg (by omega)]
  · rw [h, if_pos (by omega)]
    exact ⟨rfl, by simp [clearTokens], by simp [clearTokens]⟩
  · rw [hT, if_pos (by omega)]

/-- C1 witness: with a 301-second lifetime written at time 0, the computed
expiry is 1000; a read at 999 returns the token, a read at 1000 returns
absent and clears the token field. -/
theorem C1_expiry_boundary_witness :
    getAccessToken 999 (setAccessToken 0 trGood emptyStore).1 =
      (some "tok", (setAccessToken 0 trGood emptyStore).1,
       [StoreOp.get SSO_TOKEN_KEY, StoreOp.get SSO_TOKEN_EXPIRY_KEY]) ∧
    (getAccessToken 1000 (setAccessToken 0 trGood emptyStore).1).1 = none ∧
    (getAccessToken 1000 (setAccessToken 0 trGood emptyStore).1).2.1.sso_access_token = none := by
  have h1 := C1_expiry_boundary emptyStore 0 999 trGood (by decide)
  have h2 := C1_expiry_boundary emptyStore 0 1000 trGood (by decide)
  exact ⟨h1.1 (by decide), (h2.2.1 (by decide)).1, (h2.2.1 (by decide)).2.1⟩

/-- C1 counterexample: the claim quantifies over every stored token, but a
token response whose `access_token` is the empty string is treated as falsy
by `getAccessToken`: a read strictly before the expiry instant (time 0,
expiry 1000) returns absent rather than the stored (empty) token string, and
a read at or after the expiry instant (time 5000) does not delete the expiry
field. -/
theorem C1_counterexample :
    trEmptyTok.access_token = "" ∧
    (0 : Int) < 0 + trEmptyTok.expires_in * 1000 - 300000 ∧
    (getAccessToken 0 (setAccessToken 0 trEmptyTok emptyStore).1).1 ≠
      some trEmptyTok.access_token ∧
    (getAccessToken 5000 (setAccessToken 0 trEmptyTok emptyStore).1).2.1.sso_token_expiry =
      some "1000" := by
  decide

/-- C2 (confirmed): when the cache read yields a token, `getValidAccessToken`
returns exactly that token, leaves the store unchanged, issues only the two
token-cache reads (in particular no credential and no configuration read),
and issues no fetch request. -/
theorem C2_cached_token_no_network (now : Int) (st : Store) (net : FetchOutcome)
    (t : String) (h : (getAccessToken now st).1 = some t) :
    getValidAccessToken now st net =
      { result := Except.ok t, store := st,
        storeOps := [StoreOp.get SSO_TOKEN_KEY, StoreOp.get SSO_TOKEN_EXPIRY_KEY],
        requests := [] } := by
  have hf := getAccessToken_some_frame now st t h
  simp [getValidAccessToken, hf]

/-- C2 witness: a store with token `"tok"` and expiry `"99"` read at time 0. -/
theorem C2_cached_token_no_network_witness :
    getValidAccessToken 0 storeValidTok (FetchOutcome.failure "boom") =
      { result := Except.ok "tok", store := storeValidTok,
        storeOps := [StoreOp.get SSO_TOKEN_KEY, StoreOp.get SSO_TOKEN_EXPIRY_KEY],
        requests := [] } :=
  C2_cached_token_no_network 0 storeValidTok (FetchOutcome.failure "boom") "tok"
    (by decide)

/-- C3 (confirmed): with no valid cached token and the credentials record or
the configuration record absent, `getValidAccessToken` fails with the
configuration-missing error (whose text instructs the caller to configure
SSO) and issues no fetch request. -/
theorem C3_config_missing (now : Int) (st : Store) (net : FetchOutcome)
    (h : (getAccessToken now st).1 = none)
    (hmiss : st.sso_credentials = none ∨ st.gemini_api_config = none) :
    (getValidAccessToken now st net).result =
      Except.error "No stored credentials or config found. Please configure SSO settings." ∧
    (getValidAccessToken now st net).requests = [] := by
  have hfields := getAccessToken_store_fields now st
  simp only [getValidAccessToken, h, getSSOCredentials, getGeminiConfig]
  rw [hfields.1, hfields.2]
  rcases hmiss with hm | hm
  · rw [hm]
    cases hcfg : st.gemini_api_config with
    | none => exact ⟨rfl, rfl⟩
    | some g => exact ⟨rfl, rfl⟩
  · rw [hm]
    cases hcred : st.sso_credentials with
    | none => exact ⟨rfl, rfl⟩
    | some c => exact ⟨rfl, rfl⟩

/-- C3 witness: the empty store at time 0. -/
theorem C3_config_missing_witness :
    (getValidAccessToken 0 emptyStore (FetchOutcome.failure "x")).result =
      Except.error "No stored credentials or config found. Please configure SSO settings." ∧
    (getValidAccessToken 0 emptyStore (FetchOutcome.failure "x")).requests = [] :=
  C3_config_missing 0 emptyStore (FetchOutcome.failure "x") (by decide) (Or.inl rfl)

/-- C4 (confirmed): on a non-2xx response, `performSSOLogin` fails with an
error whose message embeds the status code, the status text, and the
best-effort body text (a body-read failure yields empty detail), and the
store is left unchanged with no store operation issued. -/
theorem C4_http_failure (now : Int) (url : String) (cred : SSOCredentials)
    (st : Store) (r : HttpResponse)
    (hbad : ¬ (200 ≤ r.status ∧ r.status ≤ 299)) :
    (performSSOLogin now url cred st (FetchOutcome.response r)).result =
      Except.error ("SSO login failed: " ++ toString r.status ++ " " ++
        r.statusText ++ ". Details: " ++
        (match r.bodyText with | Except.ok t => t | Except.error _ => "")) ∧
    (performSSOLogin now url cred st (FetchOutcome.response r)).store = st ∧
    (performSSOLogin now url cred st (FetchOutcome.response r)).storeOps = [] := by
  have hok : responseOk r.status = false := by
    simp only [responseOk, decide_eq_false_iff_not]
    exact hbad
  have hmsg : ∀ d : String,
      catchHandler url ("SSO login failed: " ++ toString r.status ++ " " ++
          r.statusText ++ ". Details: " ++ d) =
        "SSO login failed: " ++ toString r.status ++ " " ++ r.statusText ++
          ". Details: " ++ d := fun d => by
    unfold catchHandler
    exact if_neg (httpFailureMessage_ne r.status r.statusText d)
  simp [performSSOLogin, hok, httpFailureMessage, hmsg]

/-- C4 witness: HTTP 401 "Unauthorized" with body "invalid credentials". -/
theorem C4_http_failure_witness :
    ¬ (200 ≤ resp401.status ∧ resp401.status ≤ 299) ∧
    (performSSOLogin 0 "https://sso.example" credPlain emptyStore
        (FetchOutcome.response resp401)).result =
      Except.error "SSO login failed: 401 Unauthorized. Details: invalid credentials" ∧
    (performSSOLogin 0 "https://sso.example" credPlain emptyStore
        (FetchOutcome.response resp401)).store = emptyStore := by
  have h := C4_http_failure 0 "https://sso.example" credPlain emptyStore resp401
    (by decide)
  refine ⟨by decide, ?_, h.2.1⟩
  rw [h.1]
  decide

/-- C5 (confirmed): a transport-level fetch failure (the rejection whose
message is `"Failed to fetch"`) is re-signalled as the expanded diagnostic
enumerating CORS, connectivity, SSL and firewall causes; any other fetch
rejection, and any JSON-parse error with a different message, is re-signalled
unchanged. -/
theorem C5_transport_diagnostic (now : Int) (url : String)
    (cred : SSOCredentials) (st : Store) :
    ((performSSOLogin now url cred st (FetchOutcome.failure "Failed to fetch")).result =
      Except.error (networkErrorMessage url)) ∧
    (∀ m, m ≠ "Failed to fetch" →
      (performSSOLogin now url cred st (FetchOutcome.failure m)).result =
        Except.error m) ∧
    (∀ r jmsg, responseOk r.status = true → r.bodyJson = Except.error jmsg →
      jmsg ≠ "Failed to fetch" →
      (performSSOLogin now url cred st (FetchOutcome.response r)).result =
        Except.error jmsg) := by
  refine ⟨?_, fun m hm => ?_, fun r jmsg hok hjson hne => ?_⟩
  · simp [performSSOLogin, catchHandler]
  · simp [performSSOLogin, catchHandler, hm]
  · simp [performSSOLogin, hok, hjson, catchHandler, hne]

/-- C5 witness: the three cases at concrete inputs. -/
theorem C5_transport_diagnostic_witness :
    (performSSOLogin 0 "https://sso.example" credPlain emptyStore
        (FetchOutcome.failure "Failed to fetch")).result =
      Except.error (networkErrorMessage "https://sso.example") ∧
    (performSSOLogin 0 "https://sso.example" credPlain emptyStore
        (FetchOutcome.failure "boom")).result = Except.error "boom" ∧
    (performSSOLogin 0 "https://sso.example" credPlain emptyStore
        (FetchOutcome.response resp200Bad)).result =
      Except.error "Unexpected end of JSON input" := by
  have h := C5_transport_diagnostic 0 "https://sso.example" credPlain emptyStore
  exact ⟨h.1, h.2.1 "boom" (by decide),
    h.2.2 resp200Bad "Unexpected end of JSON input" (by decide) rfl (by decide)⟩

/-- C6 (amended): `performSSOLogin` sends exactly one POST with JSON content
type, cross-origin mode, no credentials attached and redirects followed,
whose body uses JS `||` defaults: the stored `otp` / `otp_type` values are
passed through verbatim only when present and non-empty, and the defaults
`"NONE"` / `"PUSH"` are substituted when the field is absent or the empty
string. -/
theorem C6_request_shape (now : Int) (url : String) (cred : SSOCredentials)
    (st : Store) (net : FetchOutcome) :
    (performSSOLogin now url cred st net).requests =
      [{ url := url, method := "POST", contentTypeHeader := "application/json",
         body :=
           { userid := cred.userid, password := cred.password,
             otp := (match cred.otp with
                     | none => "NONE"
                     | some s => if s = "" then "NONE" else s),
             otp_type := (match cred.otp_type with
                          | none => "PUSH"
                          | some s => if s = "" then "PUSH" else s) },
         mode := "cors", credentials := "omit", redirect := "follow" }] := by
  rw [performSSOLogin_requests]
  rfl

/-- C6 counterexample: with `otp` and `otp_type` present but equal to the
empty string, the body sent carries the defaults `"NONE"` / `"PUSH"` rather
than the stored empty strings, because the code uses falsy `||` defaults,
not nullish `??` defaults. -/
theorem C6_counterexample :
    credEmptyOtp.otp = some "" ∧ credEmptyOtp.otp_type = some "" ∧
    (performSSOLogin 0 "https://sso.example" credEmptyOtp emptyStore
        (FetchOutcome.failure "x")).requests =
      [{ url := "https://sso.example", method := "POST",
         contentTypeHeader := "application/json",
         body := { userid := "user", password := "pw", otp := "NONE",
                   otp_type := "PUSH" },
         mode := "cors", credentials := "omit", redirect := "follow" }] := by
  decide

/-- C7 (amended): for every token response with non-empty `access_token` and
`expires_in` large enough (`E*1000 > 300000`), `setAccessToken` followed
immediately by `getAccessToken` returns the same token string; and a 2xx
login exchange with that token body returns the body and leaves the cache
populated so a subsequent read returns the same token string. -/
theorem C7_write_read_round_trip (st : Store) (T : Int) (tr : SSOTokenResponse)
    (hne : tr.access_token ≠ "") (hE : 300000 < tr.expires_in * 1000) :
    (getAccessToken T (setAccessToken T tr st).1).1 = some tr.access_token ∧
    (∀ (url : String) (cred : SSOCredentials) (r : HttpResponse),
      responseOk r.status = true → r.bodyJson = Except.ok tr →
      (performSSOLogin T url cred st (FetchOutcome.response r)).result =
        Except.ok tr ∧
      (getAccessToken T
          (performSSOLogin T url cred st (FetchOutcome.response r)).store).1 =
        some tr.access_token) := by
  have hread : (getAccessToken T (setAccessToken T tr st).1).1 =
      some tr.access_token := by
    rw [getAccessToken_after_set T T tr st hne, if_neg (by omega)]
  refine ⟨hread, fun url cred r hok hjson => ?_⟩
  rw [performSSOLogin_success T url cred st r tr hok hjson]
  exact ⟨rfl, hread⟩

/-- C7 witness: a 400-second token round-trips through write/read and
through a successful login exchange. -/
theorem C7_write_read_round_trip_witness :
    (getAccessToken 0 (setAccessToken 0 trRoundTrip emptyStore).1).1 =
      some "tok7" ∧
    (performSSOLogin 0 "https://sso.example" credPlain emptyStore
        (FetchOutcome.response resp200Good)).result = Except.ok trRoundTrip ∧
    (getAccessToken 0
        (performSSOLogin 0 "https://sso.example" credPlain emptyStore
          (FetchOutcome.response resp200Good)).store).1 = some "tok7" := by
  have h := C7_write_read_round_trip emptyStore 0 trRoundTrip (by decide) (by decide)
  have h2 := h.2 "https://sso.example" credPlain resp200Good (by decide) rfl
  exact ⟨h.1, h2.1, h2.2⟩

/-- C7 counterexample: the claim quantifies over every token response with
sufficiently large `expires_in`, but a response whose `access_token` is the
empty string does not round-trip: the read returns absent, not the stored
empty string. -/
theorem C7_counterexample :
    trEmptyTokLong.access_token = "" ∧
    300000 < trEmptyTokLong.expires_in * 1000 ∧
    (getAccessToken 0 (setAccessToken 0 trEmptyTokLong emptyStore).1).1 ≠
      some trEmptyTokLong.access_token := by
  decide

/-- C8 (confirmed): `isSSOConfigured` is true exactly when a credentials
record with non-empty `userid` and `password` and a configuration record
with non-empty `ssoUrl` and `geminiApiUrl` are both stored; it only issues
the two reads (no write, no removal, and — by its type — no fetch). -/
theorem C8_is_configured (st : Store) :
    ((isSSOConfigured st).1 = true ↔
      (∃ c, st.sso_credentials = some c ∧ c.userid ≠ "" ∧ c.password ≠ "") ∧
      (∃ g, st.gemini_api_config = some g ∧ g.ssoUrl ≠ "" ∧ g.geminiApiUrl ≠ "")) ∧
    (isSSOConfigured st).2 =
      [StoreOp.get SSO_CREDENTIALS_KEY, StoreOp.get GEMINI_CONFIG_KEY] := by
  constructor
  · cases hc : st.sso_credentials with
    | none => simp [isSSOConfigured, getSSOCredentials, getGeminiConfig, hc]
    | some c =>
      cases hg : st.gemini_api_config with
      | none => simp [isSSOConfigured, getSSOCredentials, getGeminiConfig, hc, hg]
      | some g =>
        simp [isSSOConfigured, getSSOCredentials, getGeminiConfig, hc, hg, truthy,
          and_assoc]
  · rfl

/-- C9 (confirmed): when the stored expiry text does not parse as a number
(`parseInt` yields `NaN`) and both stored fields are non-empty,
`getAccessToken` returns the stored token at every current time and never
clears the store, because `now >= NaN` is false. -/
theorem C9_nan_expiry_permanent (now : Int) (st : Store) (tok e : String)
    (htok : st.sso_access_token = some tok) (htne : tok ≠ "")
    (hexp : st.sso_token_expiry = some e) (hene : e ≠ "")
    (hnan : jsParseInt e = none) :
    getAccessToken now st =
      (some tok, st,
       [StoreOp.get SSO_TOKEN_KEY, StoreOp.get SSO_TOKEN_EXPIRY_KEY]) :=
  getAccessToken_nan now st tok e htok hexp htne hene hnan

/-- C9 witness: expiry text `"abc"`, read at the very large time 10^15. -/
theorem C9_nan_expiry_permanent_witness :
    jsParseInt "abc" = none ∧
    getAccessToken 1000000000000000 storeNanExpiry =
      (some "tok", storeNanExpiry,
       [StoreOp.get SSO_TOKEN_KEY, StoreOp.get SSO_TOKEN_EXPIRY_KEY]) :=
  ⟨by decide,
   C9_nan_expiry_permanent 1000000000000000 storeNanExpiry "tok" "abc" rfl
     (by decide) rfl (by decide) (by decide)⟩

/-- C10 (confirmed): `getAccessToken` mutates the store only on the expired
branch: a call returning a token leaves the store completely unchanged and
issues only the two reads, and so does a call where the token or expiry
field is absent or empty — in the latter case the surviving field is not
cleaned up. -/
theorem C10_read_frame (now : Int) (st : Store) :
    (∀ t, (getAccessToken now st).1 = some t →
      getAccessToken now st =
        (some t, st,
         [StoreOp.get SSO_TOKEN_KEY, StoreOp.get SSO_TOKEN_EXPIRY_KEY])) ∧
    ((st.sso_access_token = none ∨ st.sso_token_expiry = none ∨
        st.sso_access_token = some "" ∨ st.sso_token_expiry = some "") →
      getAccessToken now st =
        (none, st,
         [StoreOp.get SSO_TOKEN_KEY, StoreOp.get SSO_TOKEN_EXPIRY_KEY])) :=
  ⟨fun t h => getAccessToken_some_frame now st t h,
   fun h => getAccessToken_falsy now st h⟩

/-- C10 witness: a valid-token store is untouched by a read, and a store
holding only a token string (no expiry) keeps that token field untouched. -/
theorem C10_read_frame_witness :
    getAccessToken 0 storeValidTok =
      (some "tok", storeValidTok,
       [StoreOp.get SSO_TOKEN_KEY, StoreOp.get SSO_TOKEN_EXPIRY_KEY]) ∧
    getAccessToken 0 storeOnlyTok =
      (none, storeOnlyTok,
       [StoreOp.get SSO_TOKEN_KEY, StoreOp.get SSO_TOKEN_EXPIRY_KEY]) :=
  ⟨(C10_read_frame 0 storeValidTok).1 "tok" (by decide),
   (C10_read_frame 0 storeOnlyTok).2 (Or.inr (Or.inl rfl))⟩
